import Mathlib

/-
Verification development for the theming and visual-rendering core of the
textual repository (src/textual/design.py and src/textual/visual.py).

The color value type lives in textual/color.py, which is not part of the
excerpted sources; every definition about it below is modelled from the
specification and marked as such in its doc comment.  Everything about
Style, textualize and ColorSystem is translated directly from the two
source files.
-/

set_option maxRecDepth 20000

/-- Modelled from the spec: textual/color.py is not under src/.  A Color is
an immutable value with normalized red/green/blue channels, an alpha in
[0, 1], and an optional fixed-palette (ANSI) index; fixed-palette colors
are opaque to all blending and shading operations. -/
structure Color where
  red : ℚ
  green : ℚ
  blue : ℚ
  alpha : ℚ
  ansi : Option ℤ
deriving DecidableEq, Repr

/-- Modelled from the spec: the fully transparent color (textual/color.py TRANSPARENT). -/
def TRANSPARENT : Color := ⟨0, 0, 0, 0, none⟩

/-- Modelled from the spec: white (textual/color.py WHITE), used by the dark shade branch. -/
def WHITE : Color := ⟨1, 1, 1, 1, none⟩

/-- Modelled from the spec: black, the dark end of the luminosity scale. -/
def BLACK : Color := ⟨0, 0, 0, 1, none⟩

/-- Modelled from the spec: a color is fully transparent when its alpha is zero. -/
def Color.is_transparent (self : Color) : Bool := decide (self.alpha = 0)

/-- Modelled from the spec: linear interpolation of the channels toward
destination by factor (which may overshoot the legal range; design.py
applies clamped afterwards); the result alpha may be overridden; a
fixed-palette color is returned unchanged. -/
def Color.blend (self destination : Color) (factor : ℚ) (alpha : Option ℚ) : Color :=
  if self.ansi ≠ none then self
  else
    ⟨self.red + (destination.red - self.red) * factor,
     self.green + (destination.green - self.green) * factor,
     self.blue + (destination.blue - self.blue) * factor,
     alpha.getD (self.alpha + (destination.alpha - self.alpha) * factor),
     none⟩

/-- Modelled from the spec: adjust a luminosity coordinate by delta
(negative darkens), clamped to the legal range; a no-op for fixed-palette
colors.  Modelled as blending toward white for positive delta and toward
black for negative delta. -/
def Color.lighten (self : Color) (delta : ℚ) : Color :=
  if self.ansi ≠ none then self
  else if 0 ≤ delta then self.blend WHITE (if 1 < delta then 1 else delta) none
  else self.blend BLACK (if 1 < -delta then 1 else -delta) none

/-- Modelled from the spec: the same color with a replacement alpha. -/
def Color.with_alpha (self : Color) (alpha : ℚ) : Color := { self with alpha := alpha }

/-- Modelled from the spec: a color of inverted lightness, used as the
automatic foreground; a trivial no-op for fixed-palette colors. -/
def Color.inverse (self : Color) : Color :=
  if self.ansi ≠ none then self
  else ⟨1 - self.red, 1 - self.green, 1 - self.blue, self.alpha, none⟩

/-- Modelled from the spec: perceived brightness of the color, used to pick
a readable contrast text color. -/
def Color.brightness (self : Color) : ℚ :=
  (299 * self.red + 587 * self.green + 114 * self.blue) / 1000

/-- Modelled from the spec: near-black or near-white, whichever contrasts
more against self, at the given opacity. -/
def Color.get_contrast_text (self : Color) (alpha : ℚ) : Color :=
  (if self.brightness < 1 / 2 then WHITE else BLACK).with_alpha alpha

/-- Modelled from the spec: alpha compositing, painting other over self;
when other is fully transparent the result is self. -/
def Color.add (self other : Color) : Color :=
  if other.alpha = 0 then self
  else self.blend other other.alpha (some 1)

/-- Modelled from the spec: clamp a coordinate into the legal range. -/
def clamp01 (q : ℚ) : ℚ := if q < 0 then 0 else if 1 < q then 1 else q

/-- Modelled from the spec: project every channel back into the legal
range after arithmetic that may overshoot. -/
def Color.clamped (self : Color) : Color :=
  ⟨clamp01 self.red, clamp01 self.green, clamp01 self.blue, clamp01 self.alpha, self.ansi⟩

/-- Hex digit for a value below 16 (lower case, as in CSS hex colors). -/
def hexDigitChar (n : ℕ) : Char :=
  if n < 10 then Char.ofNat (48 + n) else Char.ofNat (87 + n)

/-- Two hex digits for a byte. -/
def byteHex (n : ℕ) : String :=
  String.mk [hexDigitChar (n / 16), hexDigitChar (n % 16)]

/-- A normalized channel as a byte in 0..255 (rounded, clamped). -/
def channelByte (q : ℚ) : ℕ :=
  if 255 < Int.toNat (Rat.floor (q * 255 + 1 / 2)) then 255
  else Int.toNat (Rat.floor (q * 255 + 1 / 2))

/-- Modelled from the spec: the serialized form of a color stored in the
generated palette: a CSS hex string for RGB colors (8 digits when the
color is translucent), a symbolic token for fixed-palette colors. -/
def Color.hex (self : Color) : String :=
  match self.ansi with
  | some n => "ansi_" ++ toString n
  | none =>
      let rgb := "#" ++ byteHex (channelByte self.red) ++ byteHex (channelByte self.green)
        ++ byteHex (channelByte self.blue)
      if self.alpha = 1 then rgb else rgb ++ byteHex (channelByte self.alpha)

/-
Translation of src/textual/visual.py.
-/

/-- The Visual abstract interface of visual.py.  Only its identity matters
to the discovery claim, so its rendering methods are left out and it is
modelled as an opaque carrier. -/
structure Visual where
  content : ℕ
deriving DecidableEq, Repr

/-- The possible results of invoking the textualize attribute of an
object: either an actual Visual, or some other value. -/
inductive TextualizeResult where
  | visual (v : Visual)
  | notVisual (value : ℕ)
deriving DecidableEq, Repr

/-- A Python object as seen by the discovery function textualize: it
either lacks a textualize attribute, or calling that attribute produces a
TextualizeResult. -/
structure Obj where
  textualize : Option TextualizeResult

/-- visual.py textualize: look up the textualize attribute; if absent
return None; call it; if the result is not a Visual return None; otherwise
return the Visual. -/
def textualize (obj : Obj) : Option Visual :=
  match obj.textualize with
  | none => none
  | some result =>
      match result with
      | TextualizeResult.visual v => some v
      | TextualizeResult.notVisual _ => none

/-- visual.py Style: a frozen dataclass of background and foreground
colors (default fully transparent), five tri-state attributes, an optional
link and optional opaque metadata bytes (modelled as a byte list). -/
structure Style where
  background : Color := TRANSPARENT
  foreground : Color := TRANSPARENT
  bold : Option Bool := none
  dim : Option Bool := none
  italic : Option Bool := none
  underline : Option Bool := none
  strike : Option Bool := none
  link : Option String := none
  _meta : Option (List ℕ) := none
deriving DecidableEq, Repr

/-- visual.py Style.__add__ (the lru_cache decorator only memoizes this
pure function, so it is translated as the plain function): paint other
over self. -/
def Style.add (self other : Style) : Style :=
  { background := self.background.add other.background
    foreground := if other.foreground.is_transparent then self.foreground else other.foreground
    bold := if other.bold = none then self.bold else other.bold
    dim := if other.dim = none then self.dim else other.dim
    italic := if other.italic = none then self.italic else other.italic
    underline := if other.underline = none then self.underline else other.underline
    strike := if other.strike = none then self.strike else other.strike
    link := if other.link = none then self.link else other.link
    _meta := if other._meta = none then self._meta else other._meta }

/-- visual.py Style.without_color: the source rebuilds the Style passing
only bold, dim, italic, strike, link and _meta, so background, foreground
and underline take their defaults. -/
def Style.without_color (self : Style) : Style :=
  { bold := self.bold
    dim := self.dim
    italic := self.italic
    strike := self.strike
    link := self.link
    _meta := self._meta }

/-- Python sum(iterable, start): the left fold of addition starting from
start. -/
def pySum (start : Style) (rest : List Style) : Style :=
  rest.foldl Style.add start

/-- visual.py Style.combine: the source makes an iterator over the styles,
takes its first element with next (raising StopIteration, modelled as
none, when empty) and sums the remaining elements starting from it. -/
def Style.combine (styles : List Style) : Option Style :=
  match styles with
  | [] => none
  | first :: rest => some (pySum first rest)

/-- Witness for C1 at two concrete style pairs: one where the second
foreground is transparent and the attributes of the second style are
unset, one where the second style sets them. -/
def styleA : Style :=
  { background := ⟨1, 0, 0, 1, none⟩, foreground := ⟨0, 0, 1, 1, none⟩,
    bold := some true, link := some "a" }

/-- Second style for the C1 witness: transparent foreground, attributes unset. -/
def styleB : Style := { background := ⟨0, 1, 0, 1 / 2, none⟩ }

/-- Third style for the C1 witness: opaque foreground, attributes set. -/
def styleB2 : Style :=
  { foreground := ⟨0, 1, 1, 1, none⟩, bold := some false, link := some "b" }

/-- A style with every attribute set, exercising without_color. -/
def styleFull : Style :=
  { background := ⟨1, 0, 0, 1, none⟩, foreground := ⟨0, 0, 1, 1, none⟩,
    bold := some true, dim := some false, italic := some true,
    underline := some true, strike := some false, link := some "x",
    _meta := some [1, 2] }

/-
Translation of src/textual/design.py.
-/

/-- design.py NUMBER_OF_SHADES. -/
def NUMBER_OF_SHADES : ℕ := 3

/-- design.py DEFAULT_DARK_BACKGROUND, the parse of the hex string "#1e1e1e". -/
def DEFAULT_DARK_BACKGROUND : Color := ⟨30 / 255, 30 / 255, 30 / 255, 1, none⟩

/-- design.py DEFAULT_DARK_SURFACE, the parse of the hex string "#272727". -/
def DEFAULT_DARK_SURFACE : Color := ⟨39 / 255, 39 / 255, 39 / 255, 1, none⟩

/-- design.py DEFAULT_LIGHT_SURFACE, the parse of the hex string "#f5f5f5". -/
def DEFAULT_LIGHT_SURFACE : Color := ⟨245 / 255, 245 / 255, 245 / 255, 1, none⟩

/-- design.py DEFAULT_LIGHT_BACKGROUND, the parse of the hex string "#efefef". -/
def DEFAULT_LIGHT_BACKGROUND : Color := ⟨239 / 255, 239 / 255, 239 / 255, 1, none⟩

/-- A Python dict as an association list in insertion order; inserting an
existing key replaces its value in place, a fresh key is appended. -/
def dictInsert : List (String × String) → String → String → List (String × String)
  | [], k, v => [(k, v)]
  | (k0, v0) :: rest, k, v =>
      if k0 = k then (k0, v) :: rest else (k0, v0) :: dictInsert rest k v

/-- Lookup in a Python dict modelled as an association list. -/
def dictGet : List (String × String) → String → Option String
  | [], _ => none
  | (k0, v0) :: rest, k => if k0 = k then some v0 else dictGet rest k

/-- design.py ColorSystem: the seed colors (already parsed; the
constructor parses each given string with Color.parse and keeps None for
an absent argument), the dark flag, the luminosity spread and the text
alpha. -/
structure ColorSystem where
  primary : Color
  secondary : Option Color := none
  warning : Option Color := none
  error : Option Color := none
  success : Option Color := none
  accent : Option Color := none
  foreground : Option Color := none
  background : Option Color := none
  surface : Option Color := none
  panel : Option Color := none
  boost : Option Color := none
  dark : Bool := false
  luminosity_spread : ℚ := 15 / 100
  text_alpha : ℚ := 95 / 100
deriving DecidableEq, Repr

/-- design.py ColorSystem.COLOR_NAMES (the class attribute; note that
foreground is absent). -/
def ColorSystem.COLOR_NAMES : List String :=
  ["primary", "secondary", "background", "primary-background",
   "secondary-background", "surface", "panel", "boost", "warning",
   "error", "success", "accent"]

/-- The shade suffix for index n, as produced both by the shades property
and by luminosity_range in generate: -darken-|n| below zero, -lighten-n
above zero, empty at zero. -/
def shadeSuffix (n : ℤ) : String :=
  if n < 0 then "-darken-" ++ toString (-n)
  else if 0 < n then "-lighten-" ++ toString n
  else ""

/-- design.py ColorSystem.shades: for every color name in COLOR_NAMES and
every shade number from -NUMBER_OF_SHADES to NUMBER_OF_SHADES, the
suffixed name. -/
def ColorSystem.shades (_self : ColorSystem) : List String :=
  ColorSystem.COLOR_NAMES.flatMap fun color =>
    (List.range (2 * NUMBER_OF_SHADES + 1)).map fun i =>
      color ++ shadeSuffix ((i : ℤ) - (NUMBER_OF_SHADES : ℤ))

/-- The resolution of the local variables computed at the top of
ColorSystem.generate; the secondary seed falls back to primary (a parsed
Color is always truthy, so the Python or is getD). -/
def ColorSystem.rsecondary (s : ColorSystem) : Color := s.secondary.getD s.primary

/-- generate local: warning falls back to primary. -/
def ColorSystem.rwarning (s : ColorSystem) : Color := s.warning.getD s.primary

/-- generate local: error falls back to the resolved secondary. -/
def ColorSystem.rerror (s : ColorSystem) : Color := s.error.getD s.rsecondary

/-- generate local: success falls back to the resolved secondary. -/
def ColorSystem.rsuccess (s : ColorSystem) : Color := s.success.getD s.rsecondary

/-- generate local: accent falls back to primary. -/
def ColorSystem.raccent (s : ColorSystem) : Color := s.accent.getD s.primary

/-- generate local: background falls back to the dark or light built-in
default selected by the dark flag. -/
def ColorSystem.rbackground (s : ColorSystem) : Color :=
  if s.dark then s.background.getD DEFAULT_DARK_BACKGROUND
  else s.background.getD DEFAULT_LIGHT_BACKGROUND

/-- generate local: surface falls back to the dark or light built-in
default selected by the dark flag. -/
def ColorSystem.rsurface (s : ColorSystem) : Color :=
  if s.dark then s.surface.getD DEFAULT_DARK_SURFACE
  else s.surface.getD DEFAULT_LIGHT_SURFACE

/-- generate local: foreground falls back to the inverse of the resolved
background. -/
def ColorSystem.rforeground (s : ColorSystem) : Color :=
  s.foreground.getD s.rbackground.inverse

/-- generate local: boost falls back to the contrast text of the resolved
background at alpha 0.04. -/
def ColorSystem.rboost (s : ColorSystem) : Color :=
  s.boost.getD ((s.rbackground.get_contrast_text 1).with_alpha (4 / 100))

/-- generate local: panel falls back to the resolved surface blended 10
percent toward primary, with boost composited on top in dark mode. -/
def ColorSystem.rpanel (s : ColorSystem) : Color :=
  match s.panel with
  | some p => p
  | none =>
      let panel := s.rsurface.blend s.primary (1 / 10) (some 1)
      if s.dark then panel.add s.rboost else panel

/-- design.py luminosity_range (the inner function of generate): the seven
pairs of shade suffix and luminosity delta n * (spread / 2) for n from
-NUMBER_OF_SHADES to NUMBER_OF_SHADES. -/
def luminosity_range (spread : ℚ) : List (String × ℚ) :=
  let luminosity_step := spread / 2
  (List.range (2 * NUMBER_OF_SHADES + 1)).map fun i =>
    (shadeSuffix ((i : ℤ) - (NUMBER_OF_SHADES : ℤ)),
      (((i : ℤ) - (NUMBER_OF_SHADES : ℤ) : ℤ) : ℚ) * luminosity_step)

/-- design.py DARK_SHADES: the color names that have a dark variant. -/
def DARK_SHADES : List String := ["primary-background", "secondary-background"]

/-- The value stored by one iteration of the shade loop in generate: the
own hex of a fixed-palette color; for a dark shade, the background
blended 15 percent toward the color, then blended toward white by
spread + delta, clamped; otherwise the color lightened by delta. -/
def shadeValue (dark : Bool) (spread : ℚ) (background : Color)
    (name : String) (color : Color) (luminosity_delta : ℚ) : String :=
  if color.ansi ≠ none then color.hex
  else if dark = true ∧ name ∈ DARK_SHADES then
    (((background.blend color (15 / 100) (some 1)).blend WHITE
      (spread + luminosity_delta) (some 1)).clamped).hex
  else (color.lighten luminosity_delta).hex

/-- design.py generate COLORS: the thirteen color names paired with their
resolved colors, in source order; primary-background and
secondary-background reuse primary and secondary. -/
def ColorSystem.resolvedCOLORS (s : ColorSystem) : List (String × Color) :=
  [("primary", s.primary),
   ("secondary", s.rsecondary),
   ("primary-background", s.primary),
   ("secondary-background", s.rsecondary),
   ("background", s.rbackground),
   ("foreground", s.rforeground),
   ("panel", s.rpanel),
   ("boost", s.rboost),
   ("surface", s.rsurface),
   ("warning", s.rwarning),
   ("error", s.rerror),
   ("success", s.rsuccess),
   ("accent", s.raccent)]

/-- design.py ColorSystem.generate: the shade loop fills the dict with a
key name plus suffix and the shade value for every color and shade, then
the derived tokens are set.  The source guards the three text tokens with
a single branch on the resolved foreground being fixed-palette; here each
of the three keys receives the branch-dependent value. -/
def ColorSystem.generate (self : ColorSystem) : List (String × String) :=
  let colors : List (String × String) :=
    self.resolvedCOLORS.foldl
      (fun acc nc =>
        (luminosity_range self.luminosity_spread).foldl
          (fun acc2 sd =>
            dictInsert acc2 (nc.1 ++ sd.1)
              (shadeValue self.dark self.luminosity_spread self.rbackground nc.1 nc.2 sd.2))
          acc)
      []
  let colors := dictInsert colors "text"
    (if self.rforeground.ansi = none then "auto 87%" else "ansi_default")
  let colors := dictInsert colors "text-muted"
    (if self.rforeground.ansi = none then "auto 60%" else "ansi_default")
  let colors := dictInsert colors "text-disabled"
    (if self.rforeground.ansi = none then "auto 38%" else "ansi_default")
  let colors := dictInsert colors "highlight-cursor" self.raccent.hex
  let colors := dictInsert colors "highlight-cursor-blurred" (self.raccent.with_alpha (3 / 10)).hex
  let colors := dictInsert colors "border" self.raccent.hex
  let colors := dictInsert colors "border-blurred" self.rsurface.hex
  let colors := dictInsert colors "highlight-hover" (self.rboost.with_alpha (5 / 100)).hex
  let colors := dictInsert colors "surface-active" (self.rsurface.lighten (self.luminosity_spread / (7 / 2))).hex
  colors


/-- The shade-loop entries of generate as a flat list, in insertion
order: for every resolved color and shade pair, the suffixed key and the
shade value. -/
def ColorSystem.shadeEntries (s : ColorSystem) : List (String × String) :=
  s.resolvedCOLORS.flatMap fun nc =>
    (luminosity_range s.luminosity_spread).map fun sd =>
      (nc.1 ++ sd.1, shadeValue s.dark s.luminosity_spread s.rbackground nc.1 nc.2 sd.2)

/-- The nine derived tokens set by generate after the shade loop, in
insertion order, with the values generate assigns them. -/
def ColorSystem.derivedEntries (s : ColorSystem) : List (String × String) :=
  [("text", if s.rforeground.ansi = none then "auto 87%" else "ansi_default"),
   ("text-muted", if s.rforeground.ansi = none then "auto 60%" else "ansi_default"),
   ("text-disabled", if s.rforeground.ansi = none then "auto 38%" else "ansi_default"),
   ("highlight-cursor", s.raccent.hex),
   ("highlight-cursor-blurred", (s.raccent.with_alpha (3 / 10)).hex),
   ("border", s.raccent.hex),
   ("border-blurred", s.rsurface.hex),
   ("highlight-hover", (s.rboost.with_alpha (5 / 100)).hex),
   ("surface-active", (s.rsurface.lighten (s.luminosity_spread / (7 / 2))).hex)]

/-- The entries of generate as a flat list: since every key inserted by
generate is fresh, each dict insertion appends, and the built dict equals
this concatenation (proved below). -/
def ColorSystem.flatGenerate (s : ColorSystem) : List (String × String) :=
  s.shadeEntries ++ s.derivedEntries

/-- The keys of the generated palette, in insertion order: seven shade
keys for each of the thirteen color names, then the nine derived tokens. -/
def expectedKeys : List String :=
  (["primary", "secondary", "primary-background", "secondary-background",
    "background", "foreground", "panel", "boost", "surface", "warning",
    "error", "success", "accent"].flatMap fun name =>
    (List.range (2 * NUMBER_OF_SHADES + 1)).map fun i =>
      name ++ shadeSuffix ((i : ℤ) - (NUMBER_OF_SHADES : ℤ)))
  ++ ["text", "text-muted", "text-disabled", "highlight-cursor",
      "highlight-cursor-blurred", "border", "border-blurred",
      "highlight-hover", "surface-active"]

/-- The seven shade indexes, darkest to lightest. -/
def SHADE_NUMBERS : List ℤ := [-3, -2, -1, 0, 1, 2, 3]

/-- A dark color system seeded with the primary color #004578 (the spec
example), every optional field absent. -/
def exampleDark : ColorSystem := { primary := ⟨0, 69 / 255, 120 / 255, 1, none⟩, dark := true }

/-- A light color system seeded with the primary color #004578, every
optional field absent. -/
def exampleLight : ColorSystem := { primary := ⟨0, 69 / 255, 120 / 255, 1, none⟩ }

/-- A light color system whose primary color is a fixed-palette (ANSI)
color. -/
def csAnsi : ColorSystem := { primary := ⟨1, 0, 0, 1, some 1⟩ }

/-- A dark color system whose primary color is a fixed-palette (ANSI)
color. -/
def csAnsiDark : ColorSystem := { primary := ⟨1, 0, 0, 1, some 1⟩, dark := true }

/-- Inserting a fresh key into a dict appends the pair at the end. -/
theorem dictInsert_eq_append (l : List (String × String)) (k v : String)
    (h : k ∉ l.map Prod.fst) : dictInsert l k v = l ++ [(k, v)] := by
  induction l with
  | nil => rfl
  | cons hd tl ih =>
      obtain ⟨k0, v0⟩ := hd
      simp only [List.map_cons, List.mem_cons] at h
      push_neg at h
      simp only [dictInsert, List.cons_append]
      rw [if_neg fun hh => h.1 hh.symm, ih h.2]

/-- Folding dict insertion over entries whose keys are all fresh appends
the entries in order. -/
theorem foldl_dictInsert_fresh :
    ∀ (entries acc : List (String × String)),
      ((acc ++ entries).map Prod.fst).Nodup →
      entries.foldl (fun d kv => dictInsert d kv.1 kv.2) acc = acc ++ entries := by
  intro entries
  induction entries with
  | nil => intro acc _; simp
  | cons kv rest ih =>
      intro acc h
      have hfresh : kv.1 ∉ acc.map Prod.fst := by
        simp only [List.map_append, List.nodup_append] at h
        intro hmem
        exact h.2.2 hmem (by simp)
      have hstep : dictInsert acc kv.1 kv.2 = acc ++ [kv] :=
        dictInsert_eq_append acc kv.1 kv.2 hfresh
      have h' : (((acc ++ [kv]) ++ rest).map Prod.fst).Nodup := by
        simpa [List.append_assoc] using h
      simp only [List.foldl_cons, hstep]
      simpa [List.append_assoc] using ih (acc ++ [kv]) h'

/-- The nested shade loop of generate is the fold of dict insertion over
the flattened list of shade entries. -/
theorem foldl_inner_flat (s : ColorSystem) :
    ∀ (l : List (String × Color)) (init : List (String × String)),
      l.foldl
        (fun acc nc =>
          (luminosity_range s.luminosity_spread).foldl
            (fun acc2 sd =>
              dictInsert acc2 (nc.1 ++ sd.1)
                (shadeValue s.dark s.luminosity_spread s.rbackground nc.1 nc.2 sd.2))
            acc)
        init
      = ((l.flatMap fun nc =>
          (luminosity_range s.luminosity_spread).map fun sd =>
            (nc.1 ++ sd.1, shadeValue s.dark s.luminosity_spread s.rbackground nc.1 nc.2 sd.2)).foldl
          (fun d kv => dictInsert d kv.1 kv.2) init) := by
  intro l
  induction l with
  | nil => intro _; rfl
  | cons nc rest ih =>
      intro init
      simp only [List.foldl_cons, List.flatMap_cons, List.foldl_append, List.foldl_map, ih]

/-- The shade loop of generate written as a fold over the flat shade
entries. -/
theorem shade_fold_eq (s : ColorSystem) :
    s.resolvedCOLORS.foldl
      (fun acc nc =>
        (luminosity_range s.luminosity_spread).foldl
          (fun acc2 sd =>
            dictInsert acc2 (nc.1 ++ sd.1)
              (shadeValue s.dark s.luminosity_spread s.rbackground nc.1 nc.2 sd.2))
          acc)
      []
    = s.shadeEntries.foldl (fun d kv => dictInsert d kv.1 kv.2) [] :=
  foldl_inner_flat s s.resolvedCOLORS []

/-- The nine derived-token insertions of generate written as a fold over
the derived entries, for an arbitrary dict built so far. -/
theorem derived_foldl_eq (s : ColorSystem) (base : List (String × String)) :
    dictInsert (dictInsert (dictInsert (dictInsert (dictInsert (dictInsert (dictInsert (dictInsert
      (dictInsert base "text"
        (if s.rforeground.ansi = none then "auto 87%" else "ansi_default"))
      "text-muted" (if s.rforeground.ansi = none then "auto 60%" else "ansi_default"))
      "text-disabled" (if s.rforeground.ansi = none then "auto 38%" else "ansi_default"))
      "highlight-cursor" s.raccent.hex)
      "highlight-cursor-blurred" (s.raccent.with_alpha (3 / 10)).hex)
      "border" s.raccent.hex)
      "border-blurred" s.rsurface.hex)
      "highlight-hover" (s.rboost.with_alpha (5 / 100)).hex)
      "surface-active" (s.rsurface.lighten (s.luminosity_spread / (7 / 2))).hex
    = s.derivedEntries.foldl (fun d kv => dictInsert d kv.1 kv.2) base := by
  simp only [ColorSystem.derivedEntries, List.foldl_cons, List.foldl_nil]

/-- The key list of the generated palette has no duplicates. -/
theorem expectedKeys_nodup : expectedKeys.Nodup := by decide

/-- The keys of the flat entry list do not depend on the seed fields. -/
theorem flatGenerate_keys (s : ColorSystem) :
    (s.flatGenerate).map Prod.fst = expectedKeys := by
  simp only [ColorSystem.flatGenerate, ColorSystem.shadeEntries, ColorSystem.derivedEntries,
    List.map_append, List.map_flatMap, List.map_map, List.map_cons, List.map_nil,
    ColorSystem.resolvedCOLORS, expectedKeys, List.flatMap_cons, List.flatMap_nil,
    luminosity_range, NUMBER_OF_SHADES]
  rfl

/-- Every key inserted by generate is fresh, so the dict built by generate
is the flat concatenation of its entries. -/
theorem generate_eq_flat (s : ColorSystem) : s.generate = s.flatGenerate := by
  have hk : ((s.flatGenerate).map Prod.fst).Nodup := by
    rw [flatGenerate_keys]; exact expectedKeys_nodup
  have hn : (([] ++ (s.shadeEntries ++ s.derivedEntries)).map Prod.fst).Nodup := by
    simpa [ColorSystem.flatGenerate] using hk
  simp only [ColorSystem.generate]
  rw [derived_foldl_eq, shade_fold_eq, ← List.foldl_append,
    foldl_dictInsert_fresh (s.shadeEntries ++ s.derivedEntries) [] hn,
    List.nil_append]
  rfl

/-- The keys of the generated palette do not depend on the seed fields. -/
theorem generate_keys (s : ColorSystem) : (s.generate).map Prod.fst = expectedKeys := by
  rw [generate_eq_flat, flatGenerate_keys]

/-- The keys of the generated palette are duplicate free. -/
theorem generate_keys_nodup (s : ColorSystem) : ((s.generate).map Prod.fst).Nodup := by
  rw [generate_keys]; exact expectedKeys_nodup

/-- In an association list with duplicate-free keys, lookup of a key finds
the value paired with it. -/
theorem dictGet_eq_of_mem :
    ∀ (l : List (String × String)) (k v : String),
      (l.map Prod.fst).Nodup → (k, v) ∈ l → dictGet l k = some v := by
  intro l
  induction l with
  | nil => intro k v _ h; cases h
  | cons hd tl ih =>
      intro k v hnd hmem
      obtain ⟨k0, v0⟩ := hd
      simp only [List.map_cons, List.nodup_cons] at hnd
      rcases List.mem_cons.mp hmem with heq | htl
      · cases heq
        simp [dictGet]
      · have hk0 : k0 ≠ k := by
          intro hcontra
          exact hnd.1 (hcontra ▸ List.mem_map_of_mem Prod.fst htl)
        simp [dictGet, hk0, ih k v hnd.2 htl]

/-- The shade pair for index n is an element of luminosity_range. -/
theorem mem_luminosity_range (spread : ℚ) (n : ℤ) (h1 : -3 ≤ n) (h2 : n ≤ 3) :
    (shadeSuffix n, (n : ℚ) * (spread / 2)) ∈ luminosity_range spread := by
  have hco : ((n + 3).toNat : ℤ) - (NUMBER_OF_SHADES : ℤ) = n := by
    unfold NUMBER_OF_SHADES
    omega
  have hlt : (n + 3).toNat < 2 * NUMBER_OF_SHADES + 1 := by
    unfold NUMBER_OF_SHADES
    omega
  have hmem := List.mem_map_of_mem
    (fun i : ℕ => (shadeSuffix ((i : ℤ) - (NUMBER_OF_SHADES : ℤ)),
      ((((i : ℤ) - (NUMBER_OF_SHADES : ℤ)) : ℤ) : ℚ) * (spread / 2)))
    (List.mem_range.mpr hlt)
  have heq : (fun i : ℕ => (shadeSuffix ((i : ℤ) - (NUMBER_OF_SHADES : ℤ)),
      ((((i : ℤ) - (NUMBER_OF_SHADES : ℤ)) : ℤ) : ℚ) * (spread / 2))) ((n + 3).toNat)
      = (shadeSuffix n, (n : ℚ) * (spread / 2)) := by
    show (shadeSuffix (((n + 3).toNat : ℤ) - (NUMBER_OF_SHADES : ℤ)),
      (((((n + 3).toNat : ℤ) - (NUMBER_OF_SHADES : ℤ)) : ℤ) : ℚ) * (spread / 2)) = _
    rw [hco]
  rw [heq] at hmem
  show _ ∈ (List.range (2 * NUMBER_OF_SHADES + 1)).map
    (fun i : ℕ => (shadeSuffix ((i : ℤ) - (NUMBER_OF_SHADES : ℤ)),
      ((((i : ℤ) - (NUMBER_OF_SHADES : ℤ)) : ℤ) : ℚ) * (spread / 2)))
  exact hmem

/-- The entry that the shade loop of generate stores for a resolved color
name and a shade index n in -3..3: the key is the name with the shade
suffix, the value is shadeValue at luminosity delta n * (spread / 2). -/
theorem generate_shade_entry (s : ColorSystem) (name : String) (color : Color)
    (hp : (name, color) ∈ s.resolvedCOLORS) (n : ℤ) (h1 : -3 ≤ n) (h2 : n ≤ 3) :
    dictGet s.generate (name ++ shadeSuffix n) =
      some (shadeValue s.dark s.luminosity_spread s.rbackground name color
        ((n : ℚ) * (s.luminosity_spread / 2))) := by
  apply dictGet_eq_of_mem _ _ _ (generate_keys_nodup s)
  rw [generate_eq_flat]
  apply List.mem_append_left
  apply List.mem_flatMap.mpr
  refine ⟨(name, color), hp, ?_⟩
  apply List.mem_map.mpr
  exact ⟨(shadeSuffix n, (n : ℚ) * (s.luminosity_spread / 2)),
    mem_luminosity_range s.luminosity_spread n h1 h2, rfl⟩

/-- Claim C1: painting Style B over Style A composites the backgrounds,
keeps the foreground of B unless it is fully transparent (falling back to
the foreground of A), and takes each tri-state attribute, the link and the
metadata from B when set, else from A. -/
theorem style_add_spec (A B : Style) :
    (A.add B).background = A.background.add B.background ∧
    (B.foreground.is_transparent = true → (A.add B).foreground = A.foreground) ∧
    (B.foreground.is_transparent = false → (A.add B).foreground = B.foreground) ∧
    (∀ v : Bool, B.bold = some v → (A.add B).bold = some v) ∧
    (B.bold = none → (A.add B).bold = A.bold) ∧
    (∀ v : Bool, B.dim = some v → (A.add B).dim = some v) ∧
    (B.dim = none → (A.add B).dim = A.dim) ∧
    (∀ v : Bool, B.italic = some v → (A.add B).italic = some v) ∧
    (B.italic = none → (A.add B).italic = A.italic) ∧
    (∀ v : Bool, B.underline = some v → (A.add B).underline = some v) ∧
    (B.underline = none → (A.add B).underline = A.underline) ∧
    (∀ v : Bool, B.strike = some v → (A.add B).strike = some v) ∧
    (B.strike = none → (A.add B).strike = A.strike) ∧
    (∀ l : String, B.link = some l → (A.add B).link = some l) ∧
    (B.link = none → (A.add B).link = A.link) ∧
    (∀ m : List ℕ, B._meta = some m → (A.add B)._meta = some m) ∧
    (B._meta = none → (A.add B)._meta = A._meta) := by
  refine ⟨rfl, ?_, ?_, ?_, ?_, ?_, ?_, ?_, ?_, ?_, ?_, ?_, ?_, ?_, ?_, ?_, ?_⟩ <;>
    intros <;> simp [Style.add, *]

/-- Witness for claim C1: the theorem applied at concrete styles, with
each hypothesis discharged by computation. -/
theorem style_add_spec_witness :
    (styleA.add styleB).background = styleA.background.add styleB.background ∧
    (styleA.add styleB).foreground = styleA.foreground ∧
    (styleA.add styleB).bold = styleA.bold ∧
    (styleA.add styleB2).foreground = styleB2.foreground ∧
    (styleA.add styleB2).bold = some false ∧
    (styleA.add styleB2).link = some "b" := by
  refine ⟨(style_add_spec styleA styleB).1,
    (style_add_spec styleA styleB).2.1 (by decide),
    (style_add_spec styleA styleB).2.2.2.2.1 (by decide),
    (style_add_spec styleA styleB2).2.2.1 (by decide),
    (style_add_spec styleA styleB2).2.2.2.1 false (by decide),
    (style_add_spec styleA styleB2).2.2.2.2.2.2.2.2.2.2.2.2.2.1 "b" (by decide)⟩

/-- Claim C2 (code bug): without_color resets both colors to transparent
and keeps bold, dim, italic, strike, link and metadata, but the source
omits underline from the rebuilt Style, so a set underline is lost even
though only the colors were meant to be reset. -/
theorem without_color_drops_underline :
    styleFull.without_color.background = TRANSPARENT ∧
    styleFull.without_color.foreground = TRANSPARENT ∧
    styleFull.without_color.bold = styleFull.bold ∧
    styleFull.without_color.dim = styleFull.dim ∧
    styleFull.without_color.italic = styleFull.italic ∧
    styleFull.without_color.strike = styleFull.strike ∧
    styleFull.without_color.link = styleFull.link ∧
    styleFull.without_color._meta = styleFull._meta ∧
    styleFull.underline = some true ∧
    styleFull.without_color.underline = none := by
  decide

/-- Claim C8: combining a non-empty sequence of styles is the
left-to-right fold of addition over the sequence starting from its first
element; in particular three styles combine as the first plus the second,
then plus the third, and the first style is not applied twice. -/
theorem style_combine_foldl :
    (∀ (x : Style) (xs : List Style), Style.combine (x :: xs) = some (xs.foldl Style.add x)) ∧
    (∀ A B C : Style, Style.combine [A, B, C] = some ((A.add B).add C)) :=
  ⟨fun _ _ => rfl, fun _ _ _ => rfl⟩

/-- Claim C9: the discovery function returns an explicit absent value
(None) both when the object has no textualize attribute and when invoking
the attribute yields a value that is not a Visual; when the invocation
yields a Visual, that Visual is returned. -/
theorem textualize_discovery (obj : Obj) :
    (obj.textualize = none → textualize obj = none) ∧
    (∀ d : ℕ, obj.textualize = some (TextualizeResult.notVisual d) → textualize obj = none) ∧
    (∀ v : Visual, obj.textualize = some (TextualizeResult.visual v) → textualize obj = some v) := by
  refine ⟨?_, ?_, ?_⟩ <;> intros <;> simp [textualize, *]

/-- Witness for claim C9: the theorem applied at the three concrete kinds
of object. -/
theorem textualize_discovery_witness :
    textualize ⟨none⟩ = none ∧
    textualize ⟨some (TextualizeResult.notVisual 3)⟩ = none ∧
    textualize ⟨some (TextualizeResult.visual ⟨7⟩)⟩ = some ⟨7⟩ :=
  ⟨(textualize_discovery ⟨none⟩).1 rfl,
    (textualize_discovery ⟨some (TextualizeResult.notVisual 3)⟩).2.1 3 rfl,
    (textualize_discovery ⟨some (TextualizeResult.visual ⟨7⟩)⟩).2.2 ⟨7⟩ rfl⟩

/-- A fixed-palette color is not lightened: lighten with zero delta
returns the color unchanged for ordinary colors. -/
theorem lighten_zero (c : Color) (h : c.ansi = none) : c.lighten 0 = c := by
  obtain ⟨r, g, b, a, ansi⟩ := c
  simp only at h
  subst h
  simp [Color.lighten, Color.blend, WHITE, Color.mk.injEq]

/-- Appending the empty shade suffix leaves a key unchanged. -/
theorem append_empty_str (s : String) : s ++ "" = s := by
  cases s
  simp [String.append]

/-- Claim C3 (corrected: the fixed-palette exception takes precedence
over the dark branch): in dark mode, for a resolved base color that is
not fixed-palette, every primary-background and secondary-background
shade entry equals the background blended 15 percent toward the base
color, then blended toward white by spread + delta, then clamped; the
last conjunct checks at the spec example that this differs from the
plain lighten result. -/
theorem dark_background_shades (s : ColorSystem) (hdark : s.dark = true) :
    (s.primary.ansi = none → ∀ n : ℤ, -3 ≤ n → n ≤ 3 →
      dictGet s.generate ("primary-background" ++ shadeSuffix n) =
        some ((((s.rbackground.blend s.primary (15 / 100) (some 1)).blend WHITE
          (s.luminosity_spread + (n : ℚ) * (s.luminosity_spread / 2)) (some 1)).clamped).hex)) ∧
    (s.rsecondary.ansi = none → ∀ n : ℤ, -3 ≤ n → n ≤ 3 →
      dictGet s.generate ("secondary-background" ++ shadeSuffix n) =
        some ((((s.rbackground.blend s.rsecondary (15 / 100) (some 1)).blend WHITE
          (s.luminosity_spread + (n : ℚ) * (s.luminosity_spread / 2)) (some 1)).clamped).hex)) ∧
    dictGet exampleDark.generate "primary-background-darken-1" ≠
      some ((exampleDark.primary.lighten ((-1 : ℚ) * (exampleDark.luminosity_spread / 2))).hex) := by
  refine ⟨?_, ?_, of_decide_eq_true (by with_unfolding_all rfl)⟩
  · intro h n h1 h2
    rw [generate_shade_entry s "primary-background" s.primary
      (by simp [ColorSystem.resolvedCOLORS]) n h1 h2]
    simp [shadeValue, h, hdark, DARK_SHADES]
  · intro h n h1 h2
    rw [generate_shade_entry s "secondary-background" s.rsecondary
      (by simp [ColorSystem.resolvedCOLORS]) n h1 h2]
    simp [shadeValue, h, hdark, DARK_SHADES]

/-- Counterexample to claim C3 as stated: in a dark color system whose
primary is a fixed-palette (ANSI) color, the primary-background entry is
the fixed-palette token, not the background-blend-then-white-blend
formula. -/
theorem dark_background_shades_cex :
    ¬ (dictGet csAnsiDark.generate "primary-background"
        = some ((((csAnsiDark.rbackground.blend csAnsiDark.primary (15 / 100) (some 1)).blend WHITE
          (csAnsiDark.luminosity_spread + (0 : ℚ) * (csAnsiDark.luminosity_spread / 2))
          (some 1)).clamped).hex)) :=
  of_decide_eq_true (by with_unfolding_all rfl)

/-- Witness for the amended claim C3: the theorem applied at the dark
spec-example system, shade index -1. -/
theorem dark_background_shades_witness :
    dictGet exampleDark.generate ("primary-background" ++ shadeSuffix (-1))
      = some ((((exampleDark.rbackground.blend exampleDark.primary (15 / 100) (some 1)).blend WHITE
        (exampleDark.luminosity_spread + ((-1 : ℤ) : ℚ) * (exampleDark.luminosity_spread / 2))
        (some 1)).clamped).hex) :=
  (dark_background_shades exampleDark rfl).1 rfl (-1) (by decide) (by decide)

/-- Claim C6: for a resolved color that is fixed-palette (ANSI), every
shade entry for its name equals the hex token of the color itself. -/
theorem ansi_shades_collapse (s : ColorSystem) (name : String) (color : Color)
    (hp : (name, color) ∈ s.resolvedCOLORS) (hansi : color.ansi ≠ none)
    (n : ℤ) (h1 : -3 ≤ n) (h2 : n ≤ 3) :
    dictGet s.generate (name ++ shadeSuffix n) = some color.hex := by
  rw [generate_shade_entry s name color hp n h1 h2]
  simp [shadeValue, hansi]

/-- Witness for claim C6: the theorem applied at a light system with an
ANSI primary, shade index 2. -/
theorem ansi_shades_collapse_witness :
    dictGet csAnsi.generate ("primary" ++ shadeSuffix 2) = some (Color.mk 1 0 0 1 (some 1)).hex :=
  ansi_shades_collapse csAnsi "primary" (Color.mk 1 0 0 1 (some 1))
    (of_decide_eq_true (by with_unfolding_all rfl)) (by decide) 2 (by decide) (by decide)

/-- Claim C7: the luminosity delta for shade index n is n * (spread / 2);
for an ordinary color (not fixed-palette and not in the dark-mode
background branch) the stored shade is the hex of color.lighten(delta),
and the index-0 entry stores the hex of the unmodified base color. -/
theorem ordinary_shades_lighten (s : ColorSystem) (name : String) (color : Color)
    (hp : (name, color) ∈ s.resolvedCOLORS) (hansi : color.ansi = none)
    (hdark : ¬(s.dark = true ∧ name ∈ DARK_SHADES)) :
    luminosity_range s.luminosity_spread
      = SHADE_NUMBERS.map (fun n : ℤ => (shadeSuffix n, (n : ℚ) * (s.luminosity_spread / 2))) ∧
    (∀ n : ℤ, -3 ≤ n → n ≤ 3 →
      dictGet s.generate (name ++ shadeSuffix n) =
        some ((color.lighten ((n : ℚ) * (s.luminosity_spread / 2))).hex)) ∧
    dictGet s.generate name = some color.hex := by
  have hmain : ∀ n : ℤ, -3 ≤ n → n ≤ 3 →
      dictGet s.generate (name ++ shadeSuffix n) =
        some ((color.lighten ((n : ℚ) * (s.luminosity_spread / 2))).hex) := by
    intro n h1 h2
    rw [generate_shade_entry s name color hp n h1 h2]
    simp [shadeValue, hansi, hdark]
  refine ⟨rfl, hmain, ?_⟩
  have h0 := hmain 0 (by decide) (by decide)
  have hsuf : name ++ shadeSuffix 0 = name := by
    have hz : shadeSuffix 0 = "" := rfl
    rw [hz, append_empty_str]
  simp only [Int.cast_zero, zero_mul] at h0
  rw [hsuf, lighten_zero color hansi] at h0
  exact h0

/-- Witness for claim C7: the theorem applied at the light spec-example
system for the primary color, shade index 1 and the index-0 entry. -/
theorem ordinary_shades_lighten_witness :
    dictGet exampleLight.generate ("primary" ++ shadeSuffix 1)
      = some ((exampleLight.primary.lighten (((1 : ℤ) : ℚ) * (exampleLight.luminosity_spread / 2))).hex) ∧
    dictGet exampleLight.generate "primary" = some exampleLight.primary.hex := by
  have h := ordinary_shades_lighten exampleLight "primary" exampleLight.primary
    (of_decide_eq_true (by with_unfolding_all rfl)) rfl (by decide)
  exact ⟨h.2.1 1 (by decide) (by decide), h.2.2⟩

/-- Claim C4: generate resolves absent optional seed colors by the
chain secondary/warning/accent to primary, error/success to the resolved
secondary, background and surface to the built-in defaults selected by
the dark flag, foreground to the inverse of the resolved background,
boost to the contrast text of the resolved background at alpha 0.04, and
panel to surface blended 10 percent toward primary with boost composited
on top only in dark mode. -/
theorem colorsystem_fallback_chain (s : ColorSystem) :
    (s.secondary = none → s.rsecondary = s.primary) ∧
    (s.warning = none → s.rwarning = s.primary) ∧
    (s.error = none → s.rerror = s.rsecondary) ∧
    (s.success = none → s.rsuccess = s.rsecondary) ∧
    (s.accent = none → s.raccent = s.primary) ∧
    (s.background = none → s.rbackground
      = (if s.dark then DEFAULT_DARK_BACKGROUND else DEFAULT_LIGHT_BACKGROUND)) ∧
    (s.surface = none → s.rsurface
      = (if s.dark then DEFAULT_DARK_SURFACE else DEFAULT_LIGHT_SURFACE)) ∧
    (s.foreground = none → s.rforeground = s.rbackground.inverse) ∧
    (s.boost = none → s.rboost = (s.rbackground.get_contrast_text 1).with_alpha (4 / 100)) ∧
    (s.panel = none → s.rpanel
      = (if s.dark then (s.rsurface.blend s.primary (1 / 10) (some 1)).add s.rboost
         else s.rsurface.blend s.primary (1 / 10) (some 1))) := by
  refine ⟨?_, ?_, ?_, ?_, ?_, ?_, ?_, ?_, ?_, ?_⟩ <;> intro h <;>
    simp [ColorSystem.rsecondary, ColorSystem.rwarning, ColorSystem.rerror,
      ColorSystem.rsuccess, ColorSystem.raccent, ColorSystem.rbackground,
      ColorSystem.rsurface, ColorSystem.rforeground, ColorSystem.rboost,
      ColorSystem.rpanel, h]

/-- Witness for claim C4: the theorem applied at the dark spec-example
system, whose optional fields are all absent. -/
theorem colorsystem_fallback_chain_witness :
    exampleDark.rsecondary = exampleDark.primary ∧
    exampleDark.rerror = exampleDark.rsecondary ∧
    exampleDark.rbackground
      = (if exampleDark.dark then DEFAULT_DARK_BACKGROUND else DEFAULT_LIGHT_BACKGROUND) ∧
    exampleDark.rforeground = exampleDark.rbackground.inverse ∧
    exampleDark.rpanel
      = (if exampleDark.dark
         then (exampleDark.rsurface.blend exampleDark.primary (1 / 10) (some 1)).add exampleDark.rboost
         else exampleDark.rsurface.blend exampleDark.primary (1 / 10) (some 1)) := by
  have h := colorsystem_fallback_chain exampleDark
  exact ⟨h.1 rfl, h.2.2.1 rfl, h.2.2.2.2.2.1 rfl, h.2.2.2.2.2.2.2.1 rfl,
    h.2.2.2.2.2.2.2.2.2 rfl⟩

/-- Claim C5: the generated palette always has exactly the same keys,
13 color names times 7 shade entries plus the 9 fixed derived tokens,
100 in total, independent of the seed fields. -/
theorem generate_key_count (s : ColorSystem) :
    (s.generate).map Prod.fst = expectedKeys ∧
    expectedKeys.length = 13 * 7 + 9 ∧
    expectedKeys.length = 100 ∧
    expectedKeys.Nodup :=
  ⟨generate_keys s, by decide, by decide, expectedKeys_nodup⟩

/-- Claim C10: every name yielded by the shades property is a key of the
generated palette, but shades yields only 12 times 7 = 84 names and never
any of the seven foreground shade keys that generate emits, because
foreground is absent from COLOR_NAMES. -/
theorem shades_vs_generate (s : ColorSystem) :
    (∀ name ∈ s.shades, name ∈ (s.generate).map Prod.fst) ∧
    s.shades.length = 84 ∧
    (∀ n : ℤ, -3 ≤ n → n ≤ 3 →
      ("foreground" ++ shadeSuffix n) ∉ s.shades ∧
      ("foreground" ++ shadeSuffix n) ∈ (s.generate).map Prod.fst) ∧
    "foreground" ∉ ColorSystem.COLOR_NAMES := by
  rw [generate_keys]
  refine ⟨?_, ?_, ?_, by decide⟩
  · simp only [ColorSystem.shades]
    decide
  · simp only [ColorSystem.shades]
    decide
  · simp only [ColorSystem.shades]
    intro n hn1 hn2
    interval_cases n <;> exact ⟨by decide, by decide⟩

/-- Witness for claim C10: the theorem applied at the dark spec-example
system, for the primary shade name and the foreground lighten-2 key. -/
theorem shades_vs_generate_witness :
    "primary" ∈ (exampleDark.generate).map Prod.fst ∧
    ("foreground" ++ shadeSuffix 2) ∉ exampleDark.shades ∧
    ("foreground" ++ shadeSuffix 2) ∈ (exampleDark.generate).map Prod.fst := by
  have h := shades_vs_generate exampleDark
  exact ⟨h.1 "primary" (by decide), (h.2.2.1 2 (by decide) (by decide)).1,
    (h.2.2.1 2 (by decide) (by decide)).2⟩
